import Mathlib

/-!
Verification of the Rockepy staged-rocket simulator against its
natural-language specification.

The development shallowly embeds the parts of the code base that the
checked claims are about:

- the generic bisection root finder (utilities/utilities.py, bisection_solver);
- the mass-budget solver (vehicles/mass_components.py, MassComponents);
- vehicle construction, the burnout-time schedule and the inclination
  validation (vehicles/orbital_rocket/orbital_rocket.py and
  vehicles/suborbital_rocket/suborbital_rocket.py);
- the orbital thrust flight-phase machine
  (flightdynamics/orbital_flight/rocket/orbital_flight_thrust.py);
- the drag and lift perturbations (aerodynamics/perturbations.py);
- the multi-phase orbital propagator
  (flight/orbital_flight/orbital_flight_propagation.py), with the
  numerical ODE integrator abstracted as a parameter.

Conventions of the embedding: Python floats are idealised as real numbers
(rationals in the executable propagation model); numpy operations on
arrays become list operations; out-of-range indexing, which would raise in
Python, is totalised with List.getD; a float division that yields NaN in
the source (0/0) is modelled by an Option result, none standing for the
NaN outcome.
-/

/-! ### Bisection solver (utilities/utilities.py, bisection_solver)

The source runs a while loop: while abs(function(mid)) > tol and
iter < max_iter, it halves the interval keeping the sign change when
there is one (otherwise it keeps the upper half), and finally returns the
midpoint.  The loop is embedded with the remaining iteration count as
fuel.  Note the source has no failure branch of any kind: it always
returns the final midpoint. -/

def bisectionGo {α : Type} [LinearOrderedField α] (f : α → α) (tol : α) :
    ℕ → α → α → α → α
  | 0, _, _, mid => mid
  | n + 1, low, high, mid =>
    if |f mid| > tol then
      if f low * f mid < 0 then
        bisectionGo f tol n low mid ((low + mid) / 2)
      else
        bisectionGo f tol n mid high ((mid + high) / 2)
    else mid

def bisection_solver {α : Type} [LinearOrderedField α]
    (f : α → α) (low high tol : α) (maxIter : ℕ) : α :=
  bisectionGo f tol maxIter low high ((low + high) / 2)

/-- The error the specification says the solver raises. -/
inductive ConvergenceError where
  | notBracketed
  | notConverged
deriving DecidableEq

/-- Modelled from the spec: the specification's version of the bisection
solve, which "fails with ConvergenceError if the root is not bracketed or
not found within the cap".  It is used only to compare the spec's claimed
error behaviour with the source's, which never signals failure. -/
def bisectionSpecGo {α : Type} [LinearOrderedField α] (f : α → α) (tol : α) :
    ℕ → α → α → α → Except ConvergenceError α
  | 0, _, _, mid =>
    if |f mid| ≤ tol then Except.ok mid
    else Except.error ConvergenceError.notConverged
  | n + 1, low, high, mid =>
    if |f mid| ≤ tol then Except.ok mid
    else if f low * f mid < 0 then
      bisectionSpecGo f tol n low mid ((low + mid) / 2)
    else
      bisectionSpecGo f tol n mid high ((mid + high) / 2)

/-- Modelled from the spec: bracketing check in front of the loop. -/
def bisectionSpec {α : Type} [LinearOrderedField α]
    (f : α → α) (low high tol : α) (maxIter : ℕ) : Except ConvergenceError α :=
  if 0 ≤ f low * f high then Except.error ConvergenceError.notBracketed
  else bisectionSpecGo f tol maxIter low high ((low + high) / 2)

theorem bisectionGo_bounds {α : Type} [LinearOrderedField α] (f : α → α) (tol : α) :
    ∀ (n : ℕ) (low high mid : α), low ≤ mid → mid ≤ high →
      low ≤ bisectionGo f tol n low high mid ∧ bisectionGo f tol n low high mid ≤ high := by
  intro n
  induction n with
  | zero => intro low high mid h1 h2; simp [bisectionGo]; exact ⟨h1, h2⟩
  | succ n ih =>
    intro low high mid h1 h2
    rw [bisectionGo]
    split
    · split
      · have h := ih low mid ((low + mid) / 2) (by linarith) (by linarith)
        exact ⟨h.1, le_trans h.2 h2⟩
      · have h := ih mid high ((mid + high) / 2) (by linarith) (by linarith)
        exact ⟨le_trans h1 h.1, h.2⟩
    · exact ⟨h1, h2⟩

/-! ### Mass-budget solver (vehicles/mass_components.py, MassComponents)

get_mass_components solves the optimum staging function for the Lagrange
multiplier by bisection over the interval
(1 / np.min(ve) + 1e-11, np.min(ve * (1 - structural_ratios))) with the
solver's default tolerance 1e-11 and iteration cap 1000, then builds the
per-stage mass ratios and masses from the returned multiplier. -/

noncomputable section RealModels

/-- specific_impulses * 9.81, elementwise. -/
def effectiveExhaust (isp : List ℝ) : List ℝ := isp.map (fun s => s * (981 / 100))

/-- np.min over a nonempty array (0 on the empty list, where numpy raises). -/
def listMin : List ℝ → ℝ
  | [] => 0
  | [a] => a
  | a :: b :: rest => min a (listMin (b :: rest))

/-- The left-hand side of the optimum staging function: everything except
the subtracted burnout velocity. -/
def stagingLHS (ve σr : List ℝ) (L : ℝ) : ℝ :=
  (ve.map (fun v => v * Real.log (v * L - 1))).sum
    - Real.log L * ve.sum
    - ((ve.zip σr).map (fun p => p.1 * Real.log (p.1 * p.2))).sum

/-- optimum_staging_function from get_mass_components. -/
def stagingFunction (ve σr : List ℝ) (dv L : ℝ) : ℝ :=
  stagingLHS ve σr L - dv

/-- Lower end of the bisection interval: 1 / np.min(ve) + 1e-11. -/
def intervalLow (ve : List ℝ) : ℝ := 1 / listMin ve + 1 / 10 ^ 11

/-- Upper end of the bisection interval: np.min(ve * (1 - structural_ratios)). -/
def intervalHigh (ve σr : List ℝ) : ℝ :=
  listMin (List.zipWith (fun v s => v * (1 - s)) ve σr)

/-- The Lagrange multiplier returned by the bisection call in
get_mass_components (default tolerance 1e-11 and cap 1000 of
bisection_solver). -/
def lagrangeMultiplier (ve σr : List ℝ) (dv : ℝ) : ℝ :=
  bisection_solver (stagingFunction ve σr dv) (intervalLow ve) (intervalHigh ve σr)
    (1 / 10 ^ 11) 1000

/-- Per-stage mass ratios: (ve * L - 1) / (ve * structural_ratios * L). -/
def massRatios (ve σr : List ℝ) (L : ℝ) : List ℝ :=
  List.zipWith (fun v s => (v * L - 1) / (v * s * L)) ve σr

/-- The factor (mass_ratio - 1) / (1 - mass_ratio * structural_ratio)
applied to the mass accumulated so far. -/
def stageFactor (mr s : ℝ) : ℝ := (mr - 1) / (1 - mr * s)

/-- The backward loop building step masses from the payload: the list of
stage step masses in stage order (the payload, appended last by np.flip,
is kept separate in stepMass below).  Stage i's mass is its factor times
the sum of the payload and all later stage masses. -/
def stepMassStages : List ℝ → ℝ → List ℝ
  | [], _ => []
  | g :: rest, p =>
    let tail := stepMassStages rest p
    g * (p + tail.sum) :: tail

/-- The per-stage step masses of the solved budget (np.flip(step_mass)
without its final payload entry). -/
def stages (ve σr : List ℝ) (L p : ℝ) : List ℝ :=
  stepMassStages (List.zipWith stageFactor (massRatios ve σr L) σr) p

/-- self.step_mass: stage masses in burn order followed by the payload. -/
def stepMass (ve σr : List ℝ) (L p : ℝ) : List ℝ := stages ve σr L p ++ [p]

/-- self.empty_mass = step_mass[0:-1] * structural_ratios. -/
def emptyMass (ve σr : List ℝ) (L p : ℝ) : List ℝ :=
  List.zipWith (fun a s => a * s) (stages ve σr L p) σr

/-- self.propellant_mass = step_mass[0:-1] - empty_mass. -/
def propellantMass (ve σr : List ℝ) (L p : ℝ) : List ℝ :=
  List.zipWith (fun a b => a - b) (stages ve σr L p) (emptyMass ve σr L p)

/-- self.total_mass = np.sum(step_mass). -/
def totalMass (ve σr : List ℝ) (L p : ℝ) : ℝ := (stepMass ve σr L p).sum

/-- self.mass_of_each_stage: mass_of_each_stage[i] = np.sum(step_mass[i:]). -/
def suffixSums : List ℝ → List ℝ
  | [] => []
  | a :: rest => (a :: rest).sum :: suffixSums rest

/-- self.mass_of_each_stage for a solved budget. -/
def massOfEachStage (ve σr : List ℝ) (L p : ℝ) : List ℝ :=
  suffixSums (stepMass ve σr L p)

end RealModels

/-! ### Vehicle construction (vehicles/orbital_rocket/orbital_rocket.py and
vehicles/suborbital_rocket/suborbital_rocket.py)

Both constructors run the mass-budget solver, derive thrust levels and
mass-flow rates, and set the fixed initial state position [0, 0, 6371],
velocity [0, 0, 1e-8].  The orbital constructor additionally derives the
burnout-time schedule and finally raises ValueError (the spec's
ConfigurationError) when the target inclination is below the launch-site
latitude. -/

noncomputable section RealModels2

/-- Burn duration of stage i: propellant_mass[i] / mass_flow_rates[i]. -/
def burnDur (prop flow : List ℝ) (i : ℕ) : ℝ := prop.getD i 0 / flow.getD i 0

/-- The burnout-time loop of OrbitalRocket.__init__, with the loop index i
and the previously appended burnout time carried through. -/
def burnoutAux (prop flow : List ℝ) (coast : ℝ) (n : ℕ) : ℕ → ℕ → ℝ → List ℝ
  | 0, _, _ => []
  | fuel + 1, i, prev =>
    let b :=
      if i = 0 then burnDur prop flow 0
      else if i < n - 1 then prev + coast + burnDur prop flow i
      else prev + burnDur prop flow i
    b :: burnoutAux prop flow coast n fuel (i + 1) b

/-- self.burnout_times: one entry per stage of range(number_of_stages). -/
def burnoutTimes (prop flow : List ℝ) (coast : ℝ) (n : ℕ) : List ℝ :=
  burnoutAux prop flow coast n n 0 0

end RealModels2

/-- The attributes of OrbitalRocket relevant to the claims, as set by
OrbitalRocket.__init__. -/
structure OrbitalRocketR where
  launch_site : ℝ × ℝ
  target_inclination : ℝ
  position : List ℝ
  velocity : List ℝ
  diameter : ℝ
  drag_coefficient : ℝ
  thrust_to_weight : ℝ
  number_of_stages : ℕ
  pitch_over_angle : ℝ
  coast_duration : ℝ
  final_coast : ℝ
  area : ℝ
  payload_mass : ℝ
  mass_ratio : List ℝ
  step_mass : List ℝ
  empty_mass : List ℝ
  propellant_mass : List ℝ
  mass : ℝ
  mass_of_each_stage : List ℝ
  burnout_velocity : ℝ
  structural_ratios : List ℝ
  specific_impulses : List ℝ
  effective_exhaust_velocities : List ℝ
  stage_weights : List ℝ
  stage_thrusts : List ℝ
  mass_flow_rates : List ℝ
  burnout_times : List ℝ

/-- The attributes of SuborbitalRocket relevant to the claims, as set by
SuborbitalRocket.__init__. -/
structure SuborbitalRocketR where
  launch_site : ℝ × ℝ
  position : List ℝ
  velocity : List ℝ
  diameter : ℝ
  drag_coefficient : ℝ
  thrust_to_weight : ℝ
  final_coast : ℝ
  area : ℝ
  payload_mass : ℝ
  mass : ℝ
  burnout_time : ℝ
  parachute_deployed : Bool
  burnout : Bool

noncomputable section RealModels3

/-- OrbitalRocket.__init__.  The mass components are solved, the schedule
is derived, and finally the inclination validation raises ValueError when
target_inclination < launch_site[0]; otherwise the constructed object is
returned.  Python-level failures of degenerate numpy calls (empty arrays,
out-of-range indices) are totalised away by List.getD and listMin. -/
def OrbitalRocket.init (launch_site : ℝ × ℝ) (incl : ℝ) (σr isp : List ℝ)
    (payload dv diam cd ttw : ℝ) (n : ℕ) (poa coast fc : ℝ) :
    Except String OrbitalRocketR :=
  let ve := effectiveExhaust isp
  let L := lagrangeMultiplier ve σr dv
  let st := stages ve σr L payload
  let moes := suffixSums (st ++ [payload])
  let weights := moes.dropLast.map (fun m => 981 / 100 * m)
  let thrusts := weights.map (fun w => ttw * w)
  let flows := List.zipWith (fun th v => th / v) thrusts ve
  let prop := List.zipWith (fun a b => a - b)
    st (List.zipWith (fun a s => a * s) st σr)
  if incl < launch_site.1 then
    Except.error ("The target inclination must be greater than the latitude of the launch site")
  else
    Except.ok
      { launch_site := launch_site
        target_inclination := incl
        position := [0, 0, 6371]
        velocity := [0, 0, 1 / 10 ^ 8]
        diameter := diam
        drag_coefficient := cd
        thrust_to_weight := ttw
        number_of_stages := n
        pitch_over_angle := poa
        coast_duration := coast
        final_coast := fc
        area := Real.pi * diam ^ 2 / 4
        payload_mass := payload
        mass_ratio := massRatios ve σr L
        step_mass := st ++ [payload]
        empty_mass := List.zipWith (fun a s => a * s) st σr
        propellant_mass := prop
        mass := (st ++ [payload]).sum
        mass_of_each_stage := moes
        burnout_velocity := dv
        structural_ratios := σr
        specific_impulses := isp
        effective_exhaust_velocities := ve
        stage_weights := weights
        stage_thrusts := thrusts
        mass_flow_rates := flows
        burnout_times := burnoutTimes prop flows coast n }

/-- SuborbitalRocket.__init__ (no validation, single burnout time from the
last stage). -/
def SuborbitalRocket.init (launch_site : ℝ × ℝ) (σr isp : List ℝ)
    (payload dv diam cd ttw fc : ℝ) : SuborbitalRocketR :=
  let ve := effectiveExhaust isp
  let L := lagrangeMultiplier ve σr dv
  let st := stages ve σr L payload
  let moes := suffixSums (st ++ [payload])
  let weights := moes.dropLast.map (fun m => 981 / 100 * m)
  let thrusts := weights.map (fun w => ttw * w)
  let flows := List.zipWith (fun th v => th / v) thrusts ve
  let prop := List.zipWith (fun a b => a - b)
    st (List.zipWith (fun a s => a * s) st σr)
  { launch_site := launch_site
    position := [0, 0, 6371]
    velocity := [0, 0, 1 / 10 ^ 8]
    diameter := diam
    drag_coefficient := cd
    thrust_to_weight := ttw
    final_coast := fc
    area := Real.pi * diam ^ 2 / 4
    payload_mass := payload
    mass := (st ++ [payload]).sum
    burnout_time := prop.getD (prop.length - 1) 0 / flows.getD (flows.length - 1) 0
    parachute_deployed := false
    burnout := false }

end RealModels3

/-! ### Orbital thrust flight-phase machine
(flightdynamics/orbital_flight/rocket/orbital_flight_thrust.py)

OrbitalThrust.calculate scans the burnout-time schedule to classify the
current time as burn, inter-stage coast or past the schedule; the thrust
level and mass-flow rate for the burn case are read from the lists at
index rocket.current_stage.  The thrust direction is chosen by a
three-branch if on altitude and the two gravity-turn flags, the second
branch (pitch over) rotating the radial vector by the pitch-over angle
and setting gravity_turn_initiated.  The mutated rocket attributes are
returned alongside the accelerations. -/

/-- The state vector [x, y, z, xdot, ydot, zdot, mass]. -/
structure StateR where
  x : ℝ
  y : ℝ
  z : ℝ
  vx : ℝ
  vy : ℝ
  vz : ℝ
  m : ℝ

/-- The attributes of the rocket object that OrbitalThrust.calculate
reads and writes (current_stage and the flags are attached by the
propagator before the run). -/
structure ThrustRocket where
  number_of_stages : ℕ
  burnout_times : List ℝ
  stage_thrusts : List ℝ
  mass_flow_rates : List ℝ
  coast_duration : ℝ
  current_stage : ℕ
  pitch_over_angle : ℝ
  gravity_turn_initiated : Bool
  gravity_turn_operational : Bool
  thrust : ℝ

/-- The for-loop over range(number_of_stages): break with (i, true) at the
first i with t < burnout_times[i] (burn), break with (i, false) at the
first i with t < burnout_times[i] + coast_duration (inter-stage coast),
none if the loop runs out. -/
noncomputable def thrustScanGo (coast t : ℝ) : List ℝ → ℕ → Option (ℕ × Bool)
  | [], _ => none
  | b :: rest, i =>
    if t < b then some (i, true)
    else if t < b + coast then some (i, false)
    else thrustScanGo coast t rest (i + 1)

/-- The schedule scan of OrbitalThrust.calculate over the first
number_of_stages burnout times. -/
noncomputable def thrustScan (rocket : ThrustRocket) (t : ℝ) : Option (ℕ × Bool) :=
  thrustScanGo rocket.coast_duration t
    (rocket.burnout_times.take rocket.number_of_stages) 0

noncomputable section RealModels4

/-- The thrust level selected by the loop: stage_thrusts[current_stage]
in the burn case, 0 otherwise. -/
def selectedThrust (rocket : ThrustRocket) (t : ℝ) : ℝ :=
  match thrustScan rocket t with
  | some (_, true) => rocket.stage_thrusts.getD rocket.current_stage 0
  | _ => 0

/-- The mass-flow rate selected by the loop: mass_flow_rates[current_stage]
in the burn case, 0 otherwise. -/
def selectedFlow (rocket : ThrustRocket) (t : ℝ) : ℝ :=
  match thrustScan rocket t with
  | some (_, true) => rocket.mass_flow_rates.getD rocket.current_stage 0
  | _ => 0

/-- Row vector times rotation_matrix_x(angle): the matrix product
thrust_vector @ rotation_matrix_x as written in the source. -/
def rotXRow (v : ℝ × ℝ × ℝ) (θ : ℝ) : ℝ × ℝ × ℝ :=
  (v.1,
   v.2.1 * Real.cos θ + v.2.2 * Real.sin θ,
   v.2.1 * (-Real.sin θ) + v.2.2 * Real.cos θ)

/-- The outputs of OrbitalThrust.calculate: the three acceleration
components, dmassdt, and the rocket with its mutated attributes. -/
structure ThrustOut where
  du : ℝ
  dv : ℝ
  dw : ℝ
  dm : ℝ
  rocket : ThrustRocket

/-- OrbitalThrust.calculate. -/
def OrbitalThrust.calculate (Y : StateR) (t : ℝ) (rocket : ThrustRocket) :
    ThrustOut :=
  let r := Real.sqrt (Y.x ^ 2 + Y.y ^ 2 + Y.z ^ 2)
  let v := Real.sqrt (Y.vx ^ 2 + Y.vy ^ 2 + Y.vz ^ 2)
  let thr := selectedThrust rocket t
  let flow := selectedFlow rocket t
  let radial : ℝ × ℝ × ℝ :=
    (thr / 1000 * Y.x / (Y.m * r), thr / 1000 * Y.y / (Y.m * r),
     thr / 1000 * Y.z / (Y.m * r))
  if r ≤ 6371 + 11 / 100 ∧ rocket.gravity_turn_initiated = false then
    ⟨radial.1, radial.2.1, radial.2.2, -flow, { rocket with thrust := thr }⟩
  else if r ≤ 6371 + 1 / 2 ∧ rocket.gravity_turn_operational = false then
    let rot := rotXRow radial (Real.pi / 180 * rocket.pitch_over_angle)
    ⟨rot.1, rot.2.1, rot.2.2, -flow,
      { rocket with thrust := thr, gravity_turn_initiated := true }⟩
  else
    ⟨thr / 1000 * Y.vx / (Y.m * v), thr / 1000 * Y.vy / (Y.m * v),
     thr / 1000 * Y.vz / (Y.m * v), -flow,
      { rocket with thrust := thr, gravity_turn_operational := true }⟩

/-- The guard under which an evaluation of OrbitalThrust.calculate
executes the pitch-over branch (the elif branch rotating the radial
thrust vector and setting gravity_turn_initiated). -/
def pitchOverTaken (Y : StateR) (rocket : ThrustRocket) : Prop :=
  let r := Real.sqrt (Y.x ^ 2 + Y.y ^ 2 + Y.z ^ 2)
  ¬(r ≤ 6371 + 11 / 100 ∧ rocket.gravity_turn_initiated = false) ∧
    (r ≤ 6371 + 1 / 2 ∧ rocket.gravity_turn_operational = false)

end RealModels4

/-! ### Drag and lift perturbations (aerodynamics/perturbations.py)

Both calculate methods normalise a direction vector by dividing by its
norm with no guard; at zero norm the division is 0/0, a NaN in the
source, modelled here as the none result.  The atmospheric collaborator
(density and wind lookups) is external to this core and passed in as a
function. -/

noncomputable section RealModels5

/-- np.cross for 3-vectors. -/
def cross3 (a b : ℝ × ℝ × ℝ) : ℝ × ℝ × ℝ :=
  (a.2.1 * b.2.2 - a.2.2 * b.2.1,
   a.2.2 * b.1 - a.1 * b.2.2,
   a.1 * b.2.1 - a.2.1 * b.1)

/-- Euclidean norm of a 3-vector. -/
def norm3 (a : ℝ × ℝ × ℝ) : ℝ := Real.sqrt (a.1 ^ 2 + a.2.1 ^ 2 + a.2.2 ^ 2)

/-- The Earth angular velocity vector used by DragPerturbation.calculate. -/
def omegaEarth : ℝ × ℝ × ℝ := (0, 0, 72921159 / 10 ^ 12)

/-- DragPerturbation.calculate.  ρ is the external atmospheric_density
collaborator, wind the external wind_model collaborator, useWind the
wind_condition != "None" test.  The acceleration components each divide
by the relative-velocity magnitude; at magnitude zero the source computes
0/0 = NaN, returned here as none. -/
def DragPerturbation.calculate (cd area : ℝ) (ρ : ℝ → ℝ)
    (wind : ℝ → ℝ × ℝ × ℝ) (useWind : Bool) (Y : StateR) : Option (ℝ × ℝ × ℝ) :=
  let r := Real.sqrt (Y.x ^ 2 + Y.y ^ 2 + Y.z ^ 2)
  let density := ρ (r - 6371)
  let w := if useWind then wind (r - 6371) else (0, 0, 0)
  let ωr := cross3 omegaEarth (Y.x, Y.y, Y.z)
  let vrel : ℝ × ℝ × ℝ :=
    (Y.vx - w.1 - ωr.1, Y.vy - w.2.1 - ωr.2.1, Y.vz - w.2.2 - ωr.2.2)
  let vm := norm3 vrel
  if vm = 0 then none
  else some
    ((-(1 / 2) * density * (vm * 1000) ^ 2 * cd * area / Y.m * vrel.1 / vm) / 1000,
     (-(1 / 2) * density * (vm * 1000) ^ 2 * cd * area / Y.m * vrel.2.1 / vm) / 1000,
     (-(1 / 2) * density * (vm * 1000) ^ 2 * cd * area / Y.m * vrel.2.2 / vm) / 1000)

/-- Lift.calculate.  Note the source crosses the angular velocity with the
velocity vector (not the position) when forming the relative velocity.
The lift direction is normalised by its norm with no guard; at zero norm
(in particular at zero relative velocity) the source computes 0/0 = NaN,
returned here as none. -/
def Lift.calculate (cl area : ℝ) (ρ : ℝ → ℝ) (Y : StateR) :
    Option (ℝ × ℝ × ℝ) :=
  let ωv := cross3 omegaEarth (Y.vx, Y.vy, Y.vz)
  let vrel : ℝ × ℝ × ℝ :=
    (Y.vx - ωv.1, Y.vy - ωv.2.1, Y.vz - ωv.2.2)
  let vm := norm3 vrel
  let density := ρ (norm3 (Y.x, Y.y, Y.z) - 6371)
  let nv := cross3 vrel (Y.x, Y.y, Y.z)
  let liftDir := cross3 nv vrel
  let lm := norm3 liftDir
  if lm = 0 then none
  else some
    ((-(1 / 2) * density * (vm * 1000) ^ 2 * cl * area / Y.m * (-liftDir.1 / lm)) / 1000,
     (-(1 / 2) * density * (vm * 1000) ^ 2 * cl * area / Y.m * (-liftDir.2.1 / lm)) / 1000,
     (-(1 / 2) * density * (vm * 1000) ^ 2 * cl * area / Y.m * (-liftDir.2.2 / lm)) / 1000)

end RealModels5

/-! ### Multi-phase orbital propagator
(flight/orbital_flight/orbital_flight_propagation.py)

Propagator.propagate runs one solve_ivp call per stage plus a final-coast
phase.  The numerical integrator is external (scipy) and is abstracted as
a function from the phase index, time span, evaluation grid and initial
state to a solution: an early-termination flag (sol.status == 1, the
terminal ground-impact event), the solution times sol.t and the solution
states sol.y.T.  This model is executable, over ℚ. -/

/-- The 7-component state vector of the propagator. -/
structure StateQ where
  x : ℚ
  y : ℚ
  z : ℚ
  vx : ℚ
  vy : ℚ
  vz : ℚ
  m : ℚ
deriving DecidableEq, Inhabited

/-- One solve_ivp result: early-termination status, sol.t and sol.y.T. -/
structure SolOut where
  early : Bool
  ts : List ℚ
  ys : List StateQ
deriving DecidableEq, Inhabited

/-- One propagation phase: its time span, the initial state handed to the
integrator (after the stage-separation mass decrement) and the solution. -/
structure PhaseRec where
  tstart : ℚ
  tend : ℚ
  init : StateQ
  sol : SolOut
deriving DecidableEq, Inhabited

/-- The fields of the rocket object the propagation loop reads. -/
structure PropRocket where
  burnout_times : List ℚ
  empty_mass : List ℚ
  final_coast : ℚ
  dt : ℚ
  initState : StateQ
deriving Inhabited

/-- The abstract external integrator: phase index, t_start, t_end,
t_eval grid, initial state to solution. -/
def Integrator : Type := ℕ → ℚ → ℚ → List ℚ → StateQ → SolOut

/-- np.arange(a, b, step) for step > 0. -/
def arange (a b step : ℚ) : List ℚ :=
  (List.range (Int.ceil ((b - a) / step)).toNat).map (fun (k : ℕ) => a + (k : ℚ) * step)

/-- np.round(q, 2).  Mathlib round is round-half-up while numpy rounds
half to even; the two agree away from ties, and all uses below are away
from ties. -/
def roundTo2 (q : ℚ) : ℚ := ((round (100 * q) : ℤ) : ℚ) / 100

/-- Phase i's start time: 0 for the first phase, the previous burnout
time otherwise. -/
def phaseStart (R : PropRocket) (i : ℕ) : ℚ :=
  if i = 0 then 0 else R.burnout_times.getD (i - 1) 0

/-- Phase i's initial state: for i > 0 the carried state's mass is
reduced by the previous stage's empty mass (U0[-1] -= empty_mass[i-1]). -/
def phaseInitState (R : PropRocket) (i : ℕ) (U0 : StateQ) : StateQ :=
  if i = 0 then U0 else { U0 with m := U0.m - R.empty_mass.getD (i - 1) 0 }

/-- Phase i's end time: burnout_times[i], or burnout_times[-1] +
final_coast for the last phase. -/
def phaseEnd (R : PropRocket) (i : ℕ) : ℚ :=
  if i < R.burnout_times.length then R.burnout_times.getD i 0
  else R.burnout_times.getD (R.burnout_times.length - 1) 0 + R.final_coast

/-- The solve_ivp call of phase i. -/
def phaseSol (R : PropRocket) (integ : Integrator) (i : ℕ) (U0 : StateQ) : SolOut :=
  integ i (phaseStart R i) (phaseEnd R i)
    (arange (phaseStart R i) (phaseEnd R i) R.dt) (phaseInitState R i U0)

/-- The record of phase i given the state carried into it. -/
def phaseRec (R : PropRocket) (integ : Integrator) (i : ℕ) (U0 : StateQ) : PhaseRec :=
  ⟨phaseStart R i, phaseEnd R i, phaseInitState R i U0, phaseSol R integ i U0⟩

/-- The phase loop of Propagator.propagate: phase i starts at 0 or at the
previous burnout time, decrements the carried state's mass by the
previous stage's empty mass when i > 0, integrates to burnout_times[i]
(or to the final coast end for the last phase), and stops after an
early-terminated phase (the break on sol.status == 1).  The state carried
to the next phase is sol.y[:, -1]. -/
def runAux (R : PropRocket) (integ : Integrator) : ℕ → ℕ → StateQ → List PhaseRec
  | 0, _, _ => []
  | fuel + 1, i, U0 =>
    if (phaseSol R integ i U0).early then [phaseRec R integ i U0]
    else phaseRec R integ i U0 ::
      runAux R integ fuel (i + 1)
        ((phaseSol R integ i U0).ys.getLastD (phaseInitState R i U0))

/-- All phases of one Propagator.propagate call (the loop runs over
range(len(burnout_times) + 1) and breaks after an early termination). -/
def propagateRecs (R : PropRocket) (integ : Integrator) : List PhaseRec :=
  runAux R integ (R.burnout_times.length + 1) 0 R.initState

/-- One step of building the combined trajectory arrays: the state rows
are always appended; for a normally completed phase the time grid
np.arange(t_start, t_end, dt) is appended; for an early-terminated phase
the recomputed grid np.arange(t_start, round(sol.t[-1], 2) + dt, dt) is
appended and then the combined time array is cut by
abs(len(t_eval) - len(Y_sol)) entries from its end when that difference
is nonzero. -/
def combineStep (dt : ℚ) (acc : List ℚ × List StateQ) (p : PhaseRec) :
    List ℚ × List StateQ :=
  let ys := acc.2 ++ p.sol.ys
  if p.sol.early then
    let grid2 := arange p.tstart (roundTo2 (p.sol.ts.getLastD 0) + dt) dt
    let err : ℕ := ((grid2.length : ℤ) - (p.sol.ys.length : ℤ)).natAbs
    let ts2 := acc.1 ++ grid2
    (if 0 < err then ts2.take (ts2.length - err) else ts2, ys)
  else
    (acc.1 ++ arange p.tstart p.tend dt, ys)

/-- The combined time and state arrays (rocket.t_eval and rocket.Y) of a
completed propagate call. -/
def combinedArrays (dt : ℚ) (ps : List PhaseRec) : List ℚ × List StateQ :=
  ps.foldl (combineStep dt) ([], [])

/-! ### Claim C2: mass-budget bisection interval and error behaviour -/

/-- C2, counterexample.  The claim says the bisection solve raises a
ConvergenceError whenever the root is not bracketed by the interval.  On
the constant function 1e-12 over (0, 1) the root is not bracketed
(f(low) * f(high) > 0, indeed f has no root at all), the spec-modelled
solver signals notBracketed, yet the source's bisection_solver returns
the midpoint 1/2 without any failure: the source has no error path. -/
theorem C2_counterexample :
    bisection_solver (fun _ : ℚ => 1 / 10 ^ 12) 0 1 (1 / 10 ^ 11) 1000 = 1 / 2 ∧
      bisectionSpec (fun _ : ℚ => 1 / 10 ^ 12) 0 1 (1 / 10 ^ 11) 1000 =
        Except.error ConvergenceError.notBracketed := by
  constructor
  · show bisectionGo (fun _ : ℚ => 1 / 10 ^ 12) (1 / 10 ^ 11) 1000 0 1 ((0 + 1) / 2) = 1 / 2
    rw [show (1000 : ℕ) = 999 + 1 from rfl, bisectionGo,
      if_neg (by rw [abs_of_pos (by norm_num : (0 : ℚ) < (1 : ℚ) / 10 ^ 12)]; norm_num)]
    norm_num
  · rw [bisectionSpec]
    norm_num

/-- C2 (amended): the mass-budget solve runs bisection on the interval
(1/min(ve) + 1e-11, min(ve * (1 - structural_ratio))) with tolerance
1e-11 and iteration cap 1000 (the definition of lagrangeMultiplier), but
no ConvergenceError is ever raised: when the root is not bracketed or is
not found within the cap the solver silently returns the final midpoint,
which always lies within the initial interval (whenever that interval is
nonempty). -/
theorem C2_thm (ve σr : List ℝ) (dv : ℝ)
    (h : intervalLow ve ≤ intervalHigh ve σr) :
    intervalLow ve ≤ lagrangeMultiplier ve σr dv ∧
      lagrangeMultiplier ve σr dv ≤ intervalHigh ve σr := by
  have := bisectionGo_bounds (stagingFunction ve σr dv) (1 / 10 ^ 11) 1000
    (intervalLow ve) (intervalHigh ve σr)
    ((intervalLow ve + intervalHigh ve σr) / 2) (by linarith) (by linarith)
  exact this

/-- C2, witness: a concrete single-stage instance with a nonempty
interval. -/
theorem C2_thm_witness :
    intervalLow [981] ≤ lagrangeMultiplier [981] [1 / 10] 3000 ∧
      lagrangeMultiplier [981] [1 / 10] 3000 ≤ intervalHigh [981] [1 / 10] := by
  exact C2_thm [981] [1 / 10] 3000
    (by norm_num [intervalLow, intervalHigh, listMin])

/-! ### Claim C1: properties of the solved mass budget -/

theorem stepMassStages_length (g : List ℝ) (p : ℝ) :
    (stepMassStages g p).length = g.length := by
  induction g with
  | nil => simp [stepMassStages]
  | cons a rest ih => simp [stepMassStages, ih]

theorem zipWith_sub_add_cancel (st σl : List ℝ) (h : st.length ≤ σl.length) :
    List.zipWith (fun a b => a + b)
      (List.zipWith (fun a b => a - b) st (List.zipWith (fun a s => a * s) st σl))
      (List.zipWith (fun a s => a * s) st σl) = st := by
  induction st generalizing σl with
  | nil => simp
  | cons a st ih =>
    cases σl with
    | nil => simp at h
    | cons s σl =>
      simp only [List.zipWith_cons_cons, List.cons.injEq]
      refine ⟨by ring, ih σl (by simpa using h)⟩

theorem listMin_pos (l : List ℝ) (hne : l ≠ []) (h : ∀ x ∈ l, 0 < x) :
    0 < listMin l := by
  induction l with
  | nil => simp at hne
  | cons a rest ih =>
    cases rest with
    | nil => simpa [listMin] using h a (by simp)
    | cons b rest =>
      rw [listMin]
      exact lt_min (h a (by simp))
        (ih (by simp) (fun x hx => h x (List.mem_cons_of_mem a hx)))

theorem massRatios_gt_one (ve σl : List ℝ) (L : ℝ) (hL : 0 < L)
    (hv : ∀ v ∈ ve, 0 < v) (hs : ∀ s ∈ σl, 0 < s ∧ s < 1)
    (hzip : ∀ pr ∈ List.zip ve σl, 1 / (pr.1 * (1 - pr.2)) < L) :
    ∀ r ∈ massRatios ve σl L, 1 < r := by
  induction ve generalizing σl with
  | nil => simp [massRatios]
  | cons v ve ih =>
    cases σl with
    | nil => simp [massRatios]
    | cons s σl =>
      intro r hr
      rw [massRatios, List.zipWith_cons_cons] at hr
      rcases List.mem_cons.mp hr with hhead | htail
      · subst hhead
        have hv0 : 0 < v := hv v (by simp)
        have hs0 := hs s (by simp)
        have hvs : 0 < v * (1 - s) := mul_pos hv0 (by linarith [hs0.2])
        have h1 : 1 < L * (v * (1 - s)) :=
          (div_lt_iff₀ hvs).mp (hzip (v, s) (by simp))
        have hden : 0 < v * s * L := mul_pos (mul_pos hv0 hs0.1) hL
        rw [one_lt_div hden]
        nlinarith [h1]
      · exact ih σl (fun x hx => hv x (List.mem_cons_of_mem v hx))
          (fun x hx => hs x (List.mem_cons_of_mem s hx))
          (fun pr hpr => hzip pr (List.mem_cons_of_mem (v, s) hpr)) r htail

/-- C1 (amended): for matching-length structural-ratio and
specific-impulse sequences (ratios in (0,1), impulses positive), any
positive payload, and any burnout velocity and multiplier L for which the
bisection succeeds (L inside the bisection interval with the staging
function vanishing there), the solved budget satisfies unconditionally:
total mass equals payload plus the sum of the stage step masses, and each
stage's propellant plus empty mass equals its step mass.  The claim's
third property, that every per-stage mass ratio exceeds 1, holds exactly
under the additional bound that L exceeds
1 / (veᵢ * (1 - structural_ratioᵢ)) for every stage — without that extra
bound it can fail (see the counterexample). -/
theorem C1_thm (σr isp : List ℝ) (p dv L : ℝ)
    (hlen : σr.length = isp.length)
    (hσ : ∀ s ∈ σr, 0 < s ∧ s < 1)
    (hisp : ∀ v ∈ isp, 0 < v)
    (hp : 0 < p)
    (hlow : intervalLow (effectiveExhaust isp) < L)
    (hhigh : L < intervalHigh (effectiveExhaust isp) σr)
    (hroot : stagingFunction (effectiveExhaust isp) σr dv L = 0) :
    totalMass (effectiveExhaust isp) σr L p
        = p + (stages (effectiveExhaust isp) σr L p).sum ∧
      List.zipWith (fun a b => a + b)
          (propellantMass (effectiveExhaust isp) σr L p)
          (emptyMass (effectiveExhaust isp) σr L p)
        = stages (effectiveExhaust isp) σr L p ∧
      ((∀ pr ∈ List.zip (effectiveExhaust isp) σr,
          1 / (pr.1 * (1 - pr.2)) < L) →
        ∀ r ∈ massRatios (effectiveExhaust isp) σr L, 1 < r) := by
  refine ⟨?_, ?_, fun hmr => ?_⟩
  · rw [totalMass, stepMass, List.sum_append]
    simp [add_comm]
  · rw [propellantMass, emptyMass]
    refine zipWith_sub_add_cancel _ _ ?_
    rw [stages, stepMassStages_length, List.length_zipWith]
    exact min_le_right _ _
  · by_cases hne : isp = []
    · subst hne
      simp [massRatios, effectiveExhaust]
    · have hvepos : ∀ v ∈ effectiveExhaust isp, 0 < v := by
        intro v hv
        rw [effectiveExhaust, List.mem_map] at hv
        obtain ⟨s, hs, rfl⟩ := hv
        have := hisp s hs
        positivity
      have hvene : effectiveExhaust isp ≠ [] := by
        simpa [effectiveExhaust] using hne
      have hL : 0 < L := by
        have hmin := listMin_pos _ hvene hvepos
        have : 0 < intervalLow (effectiveExhaust isp) := by
          rw [intervalLow]
          positivity
        linarith
      exact massRatios_gt_one _ _ L hL hvepos hσ hmr

/-- C1, witness: a single-stage budget (structural ratio 0.1, Isp 100 s,
payload 1) with multiplier L = 1/100 inside the bisection interval and
the burnout velocity chosen as the exact value solved by that multiplier;
all three properties hold there. -/
theorem C1_thm_witness :
    totalMass (effectiveExhaust [100]) [1 / 10] (1 / 100) 1
        = 1 + (stages (effectiveExhaust [100]) [1 / 10] (1 / 100) 1).sum ∧
      List.zipWith (fun a b => a + b)
          (propellantMass (effectiveExhaust [100]) [1 / 10] (1 / 100) 1)
          (emptyMass (effectiveExhaust [100]) [1 / 10] (1 / 100) 1)
        = stages (effectiveExhaust [100]) [1 / 10] (1 / 100) 1 ∧
      ∀ r ∈ massRatios (effectiveExhaust [100]) [1 / 10] (1 / 100), 1 < r := by
  have h := C1_thm [1 / 10] [100] 1
    (stagingLHS (effectiveExhaust [100]) [1 / 10] (1 / 100)) (1 / 100)
    rfl
    (by
      intro s hs
      simp at hs
      subst hs
      norm_num)
    (by
      intro v hv
      simp at hv
      subst hv
      norm_num)
    (by norm_num)
    (by norm_num [intervalLow, effectiveExhaust, listMin])
    (by norm_num [intervalHigh, effectiveExhaust, listMin])
    (by simp [stagingFunction])
  refine ⟨h.1, h.2.1, h.2.2 ?_⟩
  intro pr hpr
  simp [effectiveExhaust] at hpr
  subst hpr
  norm_num

/-- C1, counterexample.  For the two-stage budget with structural ratios
0.1, specific impulses 100 s and 300 s, payload 1, the multiplier
L = 1/883 lies inside the bisection interval, and the burnout velocity
equal to the staging left-hand side at L makes L an exact root (the
bisection target), yet the first stage's mass ratio is
(981/883 - 1) / (981/8830) = 980/981 < 1: the claim's "every per-stage
mass ratio is strictly greater than 1" fails. -/
theorem C1_counterexample :
    ([(1 : ℝ) / 10, 1 / 10].length = [(100 : ℝ), 300].length) ∧
      (∀ s ∈ [(1 : ℝ) / 10, 1 / 10], 0 < s ∧ s < 1) ∧
      (∀ v ∈ [(100 : ℝ), 300], 0 < v) ∧
      (0 : ℝ) < 1 ∧
      intervalLow (effectiveExhaust [100, 300]) < 1 / 883 ∧
      (1 : ℝ) / 883 < intervalHigh (effectiveExhaust [100, 300]) [1 / 10, 1 / 10] ∧
      stagingFunction (effectiveExhaust [100, 300]) [1 / 10, 1 / 10]
        (stagingLHS (effectiveExhaust [100, 300]) [1 / 10, 1 / 10] (1 / 883))
        (1 / 883) = 0 ∧
      ¬ (∀ r ∈ massRatios (effectiveExhaust [100, 300]) [1 / 10, 1 / 10] (1 / 883),
          1 < r) := by
  have hve : effectiveExhaust [(100 : ℝ), 300] = [981, 2943] := by
    norm_num [effectiveExhaust]
  refine ⟨by norm_num, ?_, ?_, by norm_num, ?_, ?_, by simp [stagingFunction], ?_⟩
  · intro s hs
    simp at hs
    rcases hs with rfl | rfl <;> norm_num
  · intro v hv
    simp at hv
    rcases hv with rfl | rfl <;> norm_num
  · rw [intervalLow, hve]
    norm_num [listMin, min_def]
  · rw [intervalHigh, hve]
    norm_num [listMin, min_def]
  · intro hall
    have hmem : ((981 : ℝ) * (1 / 883) - 1) / (981 * (1 / 10) * (1 / 883)) ∈
        massRatios (effectiveExhaust [(100 : ℝ), 300]) [1 / 10, 1 / 10] (1 / 883) := by
      rw [hve, massRatios]
      simp
    have h0 := hall _ hmem
    norm_num at h0

/-! ### Claims C3 and C4: the thrust lookup and the pitch-over branch -/

theorem calculate_rocket_thrust (Y : StateR) (t : ℝ) (R : ThrustRocket) :
    ((OrbitalThrust.calculate Y t R).rocket).thrust = selectedThrust R t := by
  simp only [OrbitalThrust.calculate]
  split_ifs <;> rfl

theorem calculate_dm (Y : StateR) (t : ℝ) (R : ThrustRocket) :
    (OrbitalThrust.calculate Y t R).dm = -selectedFlow R t := by
  simp only [OrbitalThrust.calculate]
  split_ifs <;> rfl

theorem calculate_rocket_of_pitchOver (Y : StateR) (t : ℝ) (R : ThrustRocket)
    (h : pitchOverTaken Y R) :
    (OrbitalThrust.calculate Y t R).rocket =
      { R with thrust := selectedThrust R t, gravity_turn_initiated := true } := by
  simp only [pitchOverTaken] at h
  simp only [OrbitalThrust.calculate]
  rw [if_neg h.1, if_pos h.2]

theorem calculate_keeps_operational (Y : StateR) (t : ℝ) (R : ThrustRocket)
    (h : R.gravity_turn_operational = true) :
    ((OrbitalThrust.calculate Y t R).rocket).gravity_turn_operational = true := by
  simp only [OrbitalThrust.calculate]
  split_ifs with h1 h2
  · simpa using h
  · rw [h] at h2
    simp at h2
  · simp

/-- C3 (amended): in an orbital thrust evaluation the schedule scan only
classifies the time as burn, inter-stage coast or past the schedule; in
the burn case the thrust level and mass-flow rate returned are read at
the vehicle's current-stage index, so they are those of the first stage
whose burnout time exceeds t exactly when current_stage equals that scan
index; both are zero in a coast window and past the schedule, and the
mass derivative is minus the selected mass-flow rate. -/
theorem C3_thm (Y : StateR) (t : ℝ) (R : ThrustRocket) :
    (∀ j, thrustScan R t = some (j, true) → R.current_stage = j →
      ((OrbitalThrust.calculate Y t R).rocket).thrust = R.stage_thrusts.getD j 0 ∧
        (OrbitalThrust.calculate Y t R).dm = -(R.mass_flow_rates.getD j 0)) ∧
      (∀ j, thrustScan R t = some (j, false) →
        ((OrbitalThrust.calculate Y t R).rocket).thrust = 0 ∧
          (OrbitalThrust.calculate Y t R).dm = 0) ∧
      (thrustScan R t = none →
        ((OrbitalThrust.calculate Y t R).rocket).thrust = 0 ∧
          (OrbitalThrust.calculate Y t R).dm = 0) := by
  refine ⟨?_, ?_, ?_⟩
  · intro j hscan hcur
    subst hcur
    rw [calculate_rocket_thrust, calculate_dm, selectedThrust, selectedFlow, hscan]
    exact ⟨rfl, rfl⟩
  · intro j hscan
    rw [calculate_rocket_thrust, calculate_dm, selectedThrust, selectedFlow, hscan]
    norm_num
  · intro hscan
    rw [calculate_rocket_thrust, calculate_dm, selectedThrust, selectedFlow, hscan]
    norm_num

noncomputable section ThrustExamples

/-- A state well above the pitch-over altitude band (radius 7000 km). -/
def stateA : StateR := ⟨0, 0, 7000, 0, 0, 1, 2⟩

/-- A two-stage schedule with distinct stage thrust levels whose
current-stage index is 0. -/
def rocketA : ThrustRocket := ⟨2, [10, 20], [100, 200], [1, 2], 0, 0, 5, true, true, 0⟩

/-- rocketA with the current-stage index agreeing with the scan. -/
def rocketC : ThrustRocket := ⟨2, [10, 20], [100, 200], [1, 2], 0, 1, 5, true, true, 0⟩

/-- A state inside the pitch-over altitude band (altitude 300 m). -/
def stateB : StateR := ⟨0, 0, 6371 + 3 / 10, 0, 0, 1, 2⟩

/-- A rocket with neither gravity-turn flag set. -/
def rocketB : ThrustRocket := ⟨1, [10], [100], [1], 0, 0, 5, false, false, 0⟩

/-- A rocket whose gravity-turn-operational flag is already set. -/
def rocketD : ThrustRocket := ⟨1, [10], [100], [1], 0, 0, 5, false, true, 0⟩

end ThrustExamples

/-- C3, counterexample.  At t = 15 the schedule scan of rocketA selects
stage 1 (the first stage whose burnout time 20 exceeds 15), but the
returned thrust level is stage_thrusts[current_stage] = stage_thrusts[0]
= 100, not stage 1's level 200: the levels are looked up at the vehicle's
current-stage index, not at the scanned stage. -/
theorem C3_counterexample :
    thrustScan rocketA 15 = some (1, true) ∧
      ((OrbitalThrust.calculate stateA 15 rocketA).rocket).thrust
        = rocketA.stage_thrusts.getD 0 0 ∧
      rocketA.stage_thrusts.getD 0 0 ≠ rocketA.stage_thrusts.getD 1 0 := by
  have hscan : thrustScan rocketA 15 = some (1, true) := by
    rw [thrustScan]
    norm_num [rocketA, thrustScanGo]
  refine ⟨hscan, ?_, by norm_num [rocketA]⟩
  rw [calculate_rocket_thrust, selectedThrust, hscan]
  simp [rocketA]

/-- C3, witness: when the current-stage index equals the scanned stage
index, the returned thrust level and mass derivative are those of the
first stage whose burnout time exceeds t. -/
theorem C3_thm_witness :
    ((OrbitalThrust.calculate stateA 15 rocketC).rocket).thrust
        = rocketC.stage_thrusts.getD 1 0 ∧
      (OrbitalThrust.calculate stateA 15 rocketC).dm
        = -(rocketC.mass_flow_rates.getD 1 0) := by
  refine (C3_thm stateA 15 rocketC).1 1 ?_ rfl
  rw [thrustScan]
  norm_num [rocketC, thrustScanGo]

/-- C4, counterexample.  An evaluation at 300 m altitude with both
gravity-turn flags unset executes the pitch-over branch; the branch sets
gravity_turn_initiated but its guard tests gravity_turn_operational,
which stays false, so an immediately following evaluation at the same
altitude executes the pitch-over branch again: the transition is not
one-shot. -/
theorem C4_counterexample :
    pitchOverTaken stateB rocketB ∧
      pitchOverTaken stateB ((OrbitalThrust.calculate stateB 1 rocketB).rocket) := by
  have hr : Real.sqrt (stateB.x ^ 2 + stateB.y ^ 2 + stateB.z ^ 2) = 6371 + 3 / 10 := by
    rw [show stateB.x ^ 2 + stateB.y ^ 2 + stateB.z ^ 2 = (6371 + 3 / 10) ^ 2 by
      norm_num [stateB]]
    exact Real.sqrt_sq (by norm_num)
  have hfirst : pitchOverTaken stateB rocketB := by
    rw [pitchOverTaken]
    refine ⟨fun hcon => ?_, ?_, rfl⟩
    · rw [hr] at hcon
      norm_num at hcon
    · rw [hr]
      norm_num
  refine ⟨hfirst, ?_⟩
  rw [calculate_rocket_of_pitchOver stateB 1 rocketB hfirst, pitchOverTaken]
  refine ⟨fun hcon => ?_, ?_, rfl⟩
  · rw [hr] at hcon
    norm_num at hcon
  · rw [hr]
    norm_num

/-- C4 (amended): the pitch-over branch may execute on many consecutive
evaluations while the altitude stays at or below 500 m, because its guard
tests gravity_turn_operational (never set by the branch) rather than
gravity_turn_initiated; once the gravity-turn cruise branch has run and
set gravity_turn_operational, no later evaluation executes the pitch-over
branch, and calculate never resets that flag. -/
theorem C4_thm (Y : StateR) (t : ℝ) (R : ThrustRocket)
    (h : R.gravity_turn_operational = true) :
    ¬ pitchOverTaken Y R ∧
      ((OrbitalThrust.calculate Y t R).rocket).gravity_turn_operational = true := by
  constructor
  · intro hcon
    rw [pitchOverTaken] at hcon
    rw [h] at hcon
    simp at hcon
  · exact calculate_keeps_operational Y t R h

/-- C4, witness: a rocket whose operational flag is set neither takes the
pitch-over branch nor loses the flag. -/
theorem C4_thm_witness :
    ¬ pitchOverTaken stateB rocketD ∧
      ((OrbitalThrust.calculate stateB 1 rocketD).rocket).gravity_turn_operational
        = true :=
  C4_thm stateB 1 rocketD rfl

/-! ### Claim C6: drag and lift at zero relative velocity -/

noncomputable section PerturbationExamples

/-- A state whose velocity relative to the atmosphere is the zero vector:
it sits on the rotation axis (position [0, 0, 6400]) with zero inertial
velocity and wind disabled, so v - wind - ω × r = 0. -/
def stateZeroRel : StateR := ⟨0, 0, 6400, 0, 0, 0, 50⟩

end PerturbationExamples

/-- C6: at a state whose velocity relative to the atmosphere is the zero
vector, both perturbations hit the unguarded division by a zero norm; the
source computes 0/0 = NaN there (modelled as none) instead of the zero
contribution the specification requires. -/
theorem C6_thm (cd area cl : ℝ) (ρ : ℝ → ℝ) (wind : ℝ → ℝ × ℝ × ℝ) :
    DragPerturbation.calculate cd area ρ wind false stateZeroRel = none ∧
      Lift.calculate cl area ρ stateZeroRel = none := by
  constructor
  · rw [DragPerturbation.calculate]
    norm_num [stateZeroRel, cross3, omegaEarth, norm3]
  · rw [Lift.calculate]
    norm_num [stateZeroRel, cross3, omegaEarth, norm3]

/-! ### Claim C9: stage separation at phase boundaries -/

theorem runAux_consecutive (R : PropRocket) (integ : Integrator) :
    ∀ (fuel i : ℕ) (U0 : StateQ) (k : ℕ),
      k + 1 < (runAux R integ fuel i U0).length →
      ((runAux R integ fuel i U0).getD (k + 1) default).init =
        phaseInitState R (i + k + 1)
          (((runAux R integ fuel i U0).getD k default).sol.ys.getLastD
            (((runAux R integ fuel i U0).getD k default).init)) := by
  intro fuel
  induction fuel with
  | zero =>
    intro i U0 k hk
    simp [runAux] at hk
  | succ fuel ih =>
    intro i U0 k hk
    rw [runAux] at hk ⊢
    by_cases he : (phaseSol R integ i U0).early
    · rw [if_pos he] at hk
      simp at hk
    · rw [if_neg he] at hk ⊢
      cases k with
      | zero =>
        have hrest : runAux R integ fuel (i + 1)
            ((phaseSol R integ i U0).ys.getLastD (phaseInitState R i U0)) ≠ [] := by
          intro h0
          rw [List.length_cons, h0] at hk
          simp at hk
        cases hfuel : fuel with
        | zero =>
          rw [hfuel] at hrest
          simp [runAux] at hrest
        | succ f =>
          simp only [List.getD_cons_succ, List.getD_cons_zero]
          rw [runAux]
          by_cases he2 : (phaseSol R integ (i + 1)
              ((phaseSol R integ i U0).ys.getLastD (phaseInitState R i U0))).early
          · rw [if_pos he2]
            rfl
          · rw [if_neg he2]
            rfl
      | succ k =>
        simp only [List.getD_cons_succ]
        have hk' : k + 1 < (runAux R integ fuel (i + 1)
            ((phaseSol R integ i U0).ys.getLastD (phaseInitState R i U0))).length := by
          rw [List.length_cons] at hk
          omega
        have hrec := ih (i + 1)
          ((phaseSol R integ i U0).ys.getLastD (phaseInitState R i U0)) k hk'
        rw [show i + (k + 1) + 1 = i + 1 + k + 1 by omega]
        exact hrec

/-- C9: at every phase boundary except the first, the initial state of
the next phase equals the final state of the previous phase (the last
solution sample) with only the mass component reduced by the completed
stage's empty mass; position and velocity are carried over unchanged. -/
theorem C9_thm (R : PropRocket) (integ : Integrator) (k : ℕ)
    (hk : k + 1 < (propagateRecs R integ).length)
    (hys : ((propagateRecs R integ).getD k default).sol.ys ≠ []) :
    ((propagateRecs R integ).getD (k + 1) default).init =
      { ((propagateRecs R integ).getD k default).sol.ys.getLastD
          (((propagateRecs R integ).getD k default).init) with
        m := (((propagateRecs R integ).getD k default).sol.ys.getLastD
          (((propagateRecs R integ).getD k default).init)).m
          - R.empty_mass.getD k 0 } := by
  have h := runAux_consecutive R integ (R.burnout_times.length + 1) 0 R.initState k hk
  rw [propagateRecs] at hk ⊢
  rw [h, phaseInitState, if_neg (by omega : ¬ 0 + k + 1 = 0)]
  have hidx : 0 + k + 1 - 1 = k := by omega
  rw [hidx]

/-- The initial propagation state shared by the concrete propagation
examples below. -/
def stateS : StateQ := ⟨0, 0, 6371, 0, 0, 1 / 100000000, 10⟩

/-- A single-stage propagation rocket with burnout at t = 1 s, time step
0.5 s. -/
def rocketP : PropRocket := ⟨[1], [1], 1, 1 / 2, stateS⟩

/-- An integrator that always completes its phase, producing one sample
at the phase start. -/
def integNormal : Integrator := fun _ tstart _ _ U => ⟨false, [tstart], [U]⟩

/-- C9, witness: a two-phase run (stage plus final coast) where the
second phase starts from the first phase's last sample with only the
mass reduced. -/
theorem C9_thm_witness :
    (0 + 1 < (propagateRecs rocketP integNormal).length) ∧
      (((propagateRecs rocketP integNormal).getD 0 default).sol.ys ≠ []) ∧
      ((propagateRecs rocketP integNormal).getD (0 + 1) default).init =
        { ((propagateRecs rocketP integNormal).getD 0 default).sol.ys.getLastD
            (((propagateRecs rocketP integNormal).getD 0 default).init) with
          m := (((propagateRecs rocketP integNormal).getD 0 default).sol.ys.getLastD
            (((propagateRecs rocketP integNormal).getD 0 default).init)).m
            - rocketP.empty_mass.getD 0 0 } :=
  ⟨by norm_num [propagateRecs, runAux, phaseSol, integNormal, rocketP],
   by norm_num [propagateRecs, runAux, phaseSol, phaseRec, integNormal, rocketP],
   C9_thm rocketP integNormal 0
     (by norm_num [propagateRecs, runAux, phaseSol, integNormal, rocketP])
     (by norm_num [propagateRecs, runAux, phaseSol, phaseRec, integNormal, rocketP])⟩

/-! ### Claim C5: trajectory truncation on early termination -/

/-- A single-stage propagation rocket with burnout at t = 0.1 s and time
step 0.004 s. -/
def rocketT : PropRocket := ⟨[1 / 10], [1], 1, 1 / 250, stateS⟩

/-- An integrator whose first phase is terminated early by the terminal
event after 7 grid samples, the last at t = 0.024 s (consistent with
scipy: sol.t is the prefix of the t_eval grid before the event time, and
sol.y has one column per entry of sol.t). -/
def integEarly : Integrator := fun i _ _ _ U =>
  if i = 0 then
    ⟨true, [0, 1 / 250, 2 / 250, 3 / 250, 4 / 250, 5 / 250, 6 / 250],
      List.replicate 7 U⟩
  else ⟨false, [], []⟩

/-- C5: evaluating the truncation reconciliation at the failing input.
The recomputed grid np.arange(0, round(0.024, 2) + 0.004, 0.004) has 6
entries, one fewer than the 7 solution rows, so readjustment_error = 1
and the combined time array is cut from 6 entries to 5 while 7 state
rows are recorded: the recorded time and state arrays end up with
different lengths 5 and 7. -/
theorem C5_thm :
    (combinedArrays (1 / 250) (propagateRecs rocketT integEarly)).1.length = 5 ∧
      (combinedArrays (1 / 250) (propagateRecs rocketT integEarly)).2.length = 7 := by
  have hrecs : propagateRecs rocketT integEarly =
      [⟨0, 1 / 10, stateS,
        ⟨true, [0, 1 / 250, 2 / 250, 3 / 250, 4 / 250, 5 / 250, 6 / 250],
          List.replicate 7 stateS⟩⟩] := by
    norm_num [propagateRecs, runAux, phaseSol, phaseRec, phaseStart, phaseEnd,
      phaseInitState, integEarly, rocketT]
  have hts : ([0, 1 / 250, 2 / 250, 3 / 250, 4 / 250, 5 / 250, 6 / 250] :
      List ℚ).getLastD 0 = 6 / 250 := rfl
  have hround : roundTo2 (6 / 250) = 2 / 100 := by
    rw [roundTo2]
    norm_num [round_eq]
  have hglen : (arange 0 (3 / 125) (1 / 250)).length = 6 := by
    simp only [arange, List.length_map, List.length_range]
    norm_num
    rfl
  rw [hrecs]
  constructor
  · simp only [combinedArrays, List.foldl, combineStep, List.nil_append]
    rw [hts, hround]
    norm_num [List.length_take, hglen]
  · simp only [combinedArrays, List.foldl, combineStep, List.nil_append]
    norm_num

/-! ### Claim C7: inclination validation at construction -/

/-- C7: constructing an orbital rocket fails (with the ValueError that
realises the spec's ConfigurationError, raised at the end of __init__ and
surfaced to the caller) exactly when the target inclination is strictly
below the launch-site latitude, and succeeds for every target inclination
greater than or equal to it. -/
theorem C7_thm (ls : ℝ × ℝ) (incl : ℝ) (σr isp : List ℝ)
    (payload dv diam cd ttw : ℝ) (n : ℕ) (poa coast fc : ℝ) :
    (OrbitalRocket.init ls incl σr isp payload dv diam cd ttw n poa coast fc).isOk
      = true ↔ ls.1 ≤ incl := by
  by_cases h : incl < ls.1
  · exact iff_of_false
      (by simp [OrbitalRocket.init, h, Except.isOk, Except.toBool]) (not_le.mpr h)
  · exact iff_of_true
      (by simp [OrbitalRocket.init, h, Except.isOk, Except.toBool]) (not_lt.mp h)

/-! ### Claim C8: the burnout-time schedule -/

theorem burnoutAux_length (prop flow : List ℝ) (coast : ℝ) (n : ℕ) :
    ∀ (fuel i : ℕ) (prev : ℝ), (burnoutAux prop flow coast n fuel i prev).length = fuel := by
  intro fuel
  induction fuel with
  | zero => intro i prev; simp [burnoutAux]
  | succ fuel ih =>
    intro i prev
    rw [burnoutAux]
    simp [ih]

theorem burnoutAux_getD_zero (prop flow : List ℝ) (coast : ℝ) (n : ℕ)
    (fuel i : ℕ) (prev : ℝ) (hf : 0 < fuel) :
    (burnoutAux prop flow coast n fuel i prev).getD 0 0 =
      if i = 0 then burnDur prop flow 0
      else if i < n - 1 then prev + coast + burnDur prop flow i
      else prev + burnDur prop flow i := by
  cases fuel with
  | zero => omega
  | succ fuel => rfl

theorem burnoutAux_getD_succ (prop flow : List ℝ) (coast : ℝ) (n : ℕ) :
    ∀ (fuel i : ℕ) (prev : ℝ) (k : ℕ), k + 1 < fuel →
      (burnoutAux prop flow coast n fuel i prev).getD (k + 1) 0 =
        (if i + k + 1 = 0 then burnDur prop flow 0
         else if i + k + 1 < n - 1 then
           (burnoutAux prop flow coast n fuel i prev).getD k 0 + coast
             + burnDur prop flow (i + k + 1)
         else (burnoutAux prop flow coast n fuel i prev).getD k 0
             + burnDur prop flow (i + k + 1)) := by
  intro fuel
  induction fuel with
  | zero => intro i prev k hk; omega
  | succ fuel ih =>
    intro i prev k hk
    rw [burnoutAux]
    cases k with
    | zero =>
      simp only [List.getD_cons_succ, List.getD_cons_zero]
      rw [burnoutAux_getD_zero prop flow coast n fuel (i + 1) _ (by omega)]
    | succ k =>
      simp only [List.getD_cons_succ]
      rw [ih (i + 1)
        (if i = 0 then burnDur prop flow 0
         else if i < n - 1 then prev + coast + burnDur prop flow i
         else prev + burnDur prop flow i) k (by omega)]
      have h2 : i + (k + 1) + 1 = i + 1 + k + 1 := by omega
      rw [h2]

/-- C8: for positive per-stage propellant masses and mass-flow rates and
a non-negative inter-stage coast duration, the derived burnout-time list
has one entry per stage, stage 0's burnout equals propellant/flow, each
middle stage adds the coast duration plus its burn duration to the
previous burnout, the last stage adds only its burn duration, and the
whole sequence is strictly increasing. -/
theorem C8_thm (n : ℕ) (prop flow : List ℝ) (coast : ℝ)
    (hpf : ∀ i, i < n → 0 < prop.getD i 0 ∧ 0 < flow.getD i 0)
    (hc : 0 ≤ coast) :
    (burnoutTimes prop flow coast n).length = n ∧
      (0 < n → (burnoutTimes prop flow coast n).getD 0 0
        = prop.getD 0 0 / flow.getD 0 0) ∧
      (∀ i, 0 < i → i < n - 1 →
        (burnoutTimes prop flow coast n).getD i 0 =
          (burnoutTimes prop flow coast n).getD (i - 1) 0 + coast
            + prop.getD i 0 / flow.getD i 0) ∧
      (∀ i, 0 < i → i = n - 1 →
        (burnoutTimes prop flow coast n).getD i 0 =
          (burnoutTimes prop flow coast n).getD (i - 1) 0
            + prop.getD i 0 / flow.getD i 0) ∧
      (∀ i, i + 1 < n →
        (burnoutTimes prop flow coast n).getD i 0
          < (burnoutTimes prop flow coast n).getD (i + 1) 0) := by
  have hb : ∀ i, i < n → 0 < burnDur prop flow i := by
    intro i hi
    have h := hpf i hi
    exact div_pos h.1 h.2
  refine ⟨burnoutAux_length prop flow coast n n 0 0, ?_, ?_, ?_, ?_⟩
  · intro hn
    rw [burnoutTimes, burnoutAux_getD_zero prop flow coast n n 0 0 hn, if_pos rfl,
      burnDur]
  · intro i h0 hlt
    obtain ⟨k, rfl⟩ : ∃ k, i = k + 1 := ⟨i - 1, by omega⟩
    rw [burnoutTimes, burnoutAux_getD_succ prop flow coast n n 0 0 k (by omega)]
    have h1 : ¬ (0 + k + 1 = 0) := by omega
    have h2 : 0 + k + 1 = k + 1 := by omega
    rw [if_neg h1, h2, if_pos (by omega : k + 1 < n - 1), burnDur]
    simp
  · intro i h0 hlast
    obtain ⟨k, rfl⟩ : ∃ k, i = k + 1 := ⟨i - 1, by omega⟩
    rw [burnoutTimes, burnoutAux_getD_succ prop flow coast n n 0 0 k (by omega)]
    have h1 : ¬ (0 + k + 1 = 0) := by omega
    have h2 : 0 + k + 1 = k + 1 := by omega
    rw [if_neg h1, h2, if_neg (by omega : ¬ (k + 1 < n - 1)), burnDur]
    simp
  · intro i hi
    rw [burnoutTimes, burnoutAux_getD_succ prop flow coast n n 0 0 i (by omega)]
    have h1 : ¬ (0 + i + 1 = 0) := by omega
    have h2 : 0 + i + 1 = i + 1 := by omega
    rw [if_neg h1, h2]
    have hbd := hb (i + 1) (by omega)
    by_cases h3 : i + 1 < n - 1
    · rw [if_pos h3]
      linarith
    · rw [if_neg h3]
      linarith

/-- C8, witness: a concrete two-stage schedule with positive propellant
masses and flows and coast duration 5. -/
theorem C8_thm_witness :
    (burnoutTimes [2, 3] [1, 1] 5 2).length = 2 ∧
      (0 < 2 → (burnoutTimes [2, 3] [1, 1] 5 2).getD 0 0
        = List.getD [(2 : ℝ), 3] 0 0 / List.getD [(1 : ℝ), 1] 0 0) ∧
      (∀ i, 0 < i → i < 2 - 1 →
        (burnoutTimes [2, 3] [1, 1] 5 2).getD i 0 =
          (burnoutTimes [2, 3] [1, 1] 5 2).getD (i - 1) 0 + 5
            + List.getD [(2 : ℝ), 3] i 0 / List.getD [(1 : ℝ), 1] i 0) ∧
      (∀ i, 0 < i → i = 2 - 1 →
        (burnoutTimes [2, 3] [1, 1] 5 2).getD i 0 =
          (burnoutTimes [2, 3] [1, 1] 5 2).getD (i - 1) 0
            + List.getD [(2 : ℝ), 3] i 0 / List.getD [(1 : ℝ), 1] i 0) ∧
      (∀ i, i + 1 < 2 →
        (burnoutTimes [2, 3] [1, 1] 5 2).getD i 0
          < (burnoutTimes [2, 3] [1, 1] 5 2).getD (i + 1) 0) := by
  refine C8_thm 2 [2, 3] [1, 1] 5 ?_ (by norm_num)
  intro i hi
  interval_cases i
  · constructor
    · norm_num
    · norm_num
  · constructor
    · norm_num
    · norm_num

/-! ### Claim C10: the fixed initial state -/

/-- C10: for every choice of launch site (and of all other construction
parameters), a successfully constructed orbital rocket's initial state is
position [0, 0, 6371] and velocity [0, 0, 1e-8], and a suborbital
rocket's likewise: the launch_site argument has no effect on either. -/
theorem C10_thm (ls : ℝ × ℝ) (incl : ℝ) (σr isp : List ℝ)
    (payload dv diam cd ttw : ℝ) (n : ℕ) (poa coast fc fc2 : ℝ) :
    ((OrbitalRocket.init ls incl σr isp payload dv diam cd ttw n poa coast fc).map
        (fun r => (r.position, r.velocity))
      = (OrbitalRocket.init ls incl σr isp payload dv diam cd ttw n poa coast fc).map
        (fun _ => ([0, 0, 6371], [0, 0, 1 / 10 ^ 8]))) ∧
      (SuborbitalRocket.init ls σr isp payload dv diam cd ttw fc2).position
        = [0, 0, 6371] ∧
      (SuborbitalRocket.init ls σr isp payload dv diam cd ttw fc2).velocity
        = [0, 0, 1 / 10 ^ 8] := by
  refine ⟨?_, rfl, rfl⟩
  rw [OrbitalRocket.init]
  by_cases h : incl < ls.1
  · rw [if_pos h]
    rfl
  · rw [if_neg h]
    rfl
